import Mathlib

/-!
Shallow embedding of the profile-aggregate router (`src/routes/api/profile.js`)
of the diversity-developers-designers repository, together with theorems
settling the specification's claims about it.

Conventions of the embedding:
* A MongoDB sub-document identifier (`_id`) is a `String` (the handlers always
  compare `_id.toString()` against a route-parameter string).
* A JavaScript value that may be `undefined` is an `Option`.
* The persistent collection of profile documents is a `List Profile`; `findOne`
  is first-match search, `save` replaces the first document with the same owner.
* A JavaScript exception (`TypeError` from dereferencing `undefined`/`null`)
  is the `Except.error` branch of an `Except JsError` computation.
* HTTP responses are a status code together with the JSON (or text) body the
  handler actually sends.
-/

set_option autoImplicit false
set_option linter.unusedVariables false

namespace ProfileApi

/-- JavaScript runtime exceptions that the handlers can raise. -/
inductive JsError where
  | typeError
  deriving DecidableEq, Repr

/-- An experience sub-document (`ExperienceEntry`): a generated identifier plus
the seven payload fields of the `experience` schema.  The JS field `from` is a
Lean keyword, so it is rendered as `fromDate`; likewise `to` becomes `toDate`. -/
structure Experience where
  id : String
  title : Option String
  company : Option String
  location : Option String
  fromDate : Option String
  toDate : Option String
  current : Option Bool
  description : Option String
  deriving DecidableEq, Repr

/-- An education sub-document (`EducationEntry`). -/
structure Education where
  id : String
  school : Option String
  degree : Option String
  fieldofstudy : Option String
  fromDate : Option String
  toDate : Option String
  current : Option Bool
  description : Option String
  deriving DecidableEq, Repr

/-- The `social` sub-object built by the upsert handler. -/
structure Social where
  youtube : Option String
  twitter : Option String
  instagram : Option String
  linkedin : Option String
  facebook : Option String
  deriving DecidableEq, Repr

/-- One profile aggregate document (`models/Profile`), keyed by its owner
identity `user`. -/
structure Profile where
  user : String
  company : Option String
  location : Option String
  website : String
  bio : Option String
  skills : List String
  status : Option String
  githubusername : Option String
  social : Social
  experience : List Experience
  education : List Education
  deriving DecidableEq, Repr

/-- `Profile.findOne({ user: uid })`: the first document owned by `uid`. -/
def findOneProfile (store : List Profile) (uid : String) : Option Profile :=
  store.find? (fun p => p.user = uid)

/-- `profile.save()` after mutating a document loaded by owner: replaces the
first document owned by `uid` with the mutated document. -/
def replaceFirstByUser (store : List Profile) (uid : String) (p2 : Profile) :
    List Profile :=
  match store with
  | [] => []
  | p :: rest =>
      if p.user = uid then p2 :: rest else p :: replaceFirstByUser rest uid p2

/-- The `unshift` used by PUT api/profile/experience (line 233): the new entry
is inserted at position 0, in front of all existing entries. -/
def expUnshift (l : List Experience) (e : Experience) : List Experience :=
  e :: l

/-- The `unshift` used by PUT api/profile/education (line 376). -/
def eduUnshift (l : List Education) (e : Education) : List Education :=
  e :: l

/-- The `filter` used by DELETE api/profile/experience/:exp_id (lines 313-315):
`experience.filter((exp) => exp._id.toString() !== exp_id)`. -/
def expRemoveByID (l : List Experience) (i : String) : List Experience :=
  l.filter (fun e => e.id ≠ i)

/-- The `filter` used by DELETE api/profile/education/:edu_id (lines 399-401). -/
def eduRemoveByID (l : List Education) (i : String) : List Education :=
  l.filter (fun e => e.id ≠ i)

/-- The JSON (or text) body a handler sends. -/
inductive RespBody where
  /-- `res.json(profile)` with a profile document. -/
  | profileJson (p : Profile)
  /-- `res.json(profile)` when `findOneAndUpdate` matched nothing and returned
  `null`. -/
  | nullJson
  /-- `res.json({ errors: [...] })`: a structured error list. -/
  | errors (msgs : List String)
  /-- `res.json({ msg: ... })`: a single-message object. -/
  | msg (m : String)
  /-- `res.send(text)`: a plain-text body. -/
  | text (s : String)
  /-- `res.json(gitHubResponse.data)`: the repository summaries, kept opaque as
  the raw payload string since the handler forwards them untouched. -/
  | reposJson (payload : String)
  deriving DecidableEq, Repr

/-- An HTTP response: status code plus body. -/
structure Response where
  status : Nat
  body : RespBody
  deriving DecidableEq, Repr

/-- The express-validator emptiness test after its coercion of a missing field
to the empty string: `check(f).not().isEmpty()` fails exactly on an absent or
empty-string field. -/
def isEmptyVal : Option String → Bool
  | none => true
  | some s => s = ""

/-- Lexicographic code-unit comparison of character lists, the order JavaScript
uses for `<` on strings. -/
def charListLt : List Char → List Char → Bool
  | _, [] => false
  | [], _ :: _ => true
  | c :: cs, d :: ds =>
      if c.toNat < d.toNat then true
      else if d.toNat < c.toNat then false
      else charListLt cs ds

/-- The JavaScript string comparison `a < b` (lexicographic by code unit). -/
def jsStrLt (a b : String) : Bool :=
  charListLt a.data b.data

/-- The JavaScript comparison `value < req.body.to` performed by the custom
validator when `value` may be `undefined`: `undefined < t` evaluates to
`false` (NaN comparison), and a present string compares lexicographically. -/
def jsLtUndef (v : Option String) (t : String) : Bool :=
  match v with
  | none => false
  | some s => jsStrLt s t

/-- The body of a PUT api/profile/experience request (all fields optional at
the transport level). -/
structure ExpBody where
  title : Option String
  company : Option String
  location : Option String
  fromDate : Option String
  toDate : Option String
  current : Option Bool
  description : Option String
  deriving DecidableEq, Repr

/-- The custom date-ordering validator on `from` (line 201):
`(value, { req }) => (req.body.to ? value < req.body.to : true)`.  A missing or
empty-string `to` is falsy, so the check is skipped. -/
def fromCustomOk (b : ExpBody) : Bool :=
  match b.toDate with
  | none => true
  | some t => if t = "" then true else jsLtUndef b.fromDate t

/-- The express-validator error messages collected for PUT
api/profile/experience (lines 196-202).  The `from` chain contributes its
message when either of its two validators fails. -/
def expValidationErrors (b : ExpBody) : List String :=
  (if isEmptyVal b.title then ["Title is required"] else []) ++
  (if isEmptyVal b.company then ["Company is required"] else []) ++
  (if isEmptyVal b.fromDate ∨ fromCustomOk b = false then
    ["From date is required and needs to be from the past"] else [])

/-- The `newExp` object built from the request body (lines 220-228), with the
sub-document identifier `fid` that mongoose generates on save. -/
def newExpOf (b : ExpBody) (fid : String) : Experience :=
  { id := fid, title := b.title, company := b.company, location := b.location,
    fromDate := b.fromDate, toDate := b.toDate, current := b.current,
    description := b.description }

/-- The PUT api/profile/experience handler (lines 191-243).  After validation
it loads the caller's profile; when no profile exists,
`profile.experience.unshift` dereferences `null` and the resulting TypeError is
caught by the handler's catch, which sends 500 "Server Error"; otherwise the
new entry is unshifted, the document saved, and the profile returned. -/
def addExpHandler (store : List Profile) (uid : String) (b : ExpBody)
    (fid : String) : Response × List Profile :=
  if expValidationErrors b ≠ [] then
    (⟨400, .errors (expValidationErrors b)⟩, store)
  else
    match findOneProfile store uid with
    | none => (⟨500, .text ("Server Error")⟩, store)
    | some pr =>
        let pr2 := { pr with experience := expUnshift pr.experience (newExpOf b fid) }
        (⟨200, .profileJson pr2⟩, replaceFirstByUser store uid pr2)

/-- The update payload of PUT api/profile/experience/:exp_id: the seven
`req.body` fields placed into the `$set` document (lines 258-266). -/
structure ExpPatch where
  current : Option Bool
  title : Option String
  company : Option String
  location : Option String
  fromDate : Option String
  toDate : Option String
  description : Option String
  deriving DecidableEq, Repr

/-- The effect of the `$set` with the positional operator on the matched array
element: all seven listed fields are overwritten with the request's values,
the generated identifier is untouched. -/
def applyExpPatch (e : Experience) (p : ExpPatch) : Experience :=
  { id := e.id, current := p.current, title := p.title, company := p.company,
    location := p.location, fromDate := p.fromDate, toDate := p.toDate,
    description := p.description }

/-- The positional update inside one document: `experience.$` designates the
first array element satisfying the `$elemMatch` condition `_id = i`. -/
def updateFirstMatch (l : List Experience) (i : String) (p : ExpPatch) :
    List Experience :=
  match l with
  | [] => []
  | e :: rest =>
      if e.id = i then applyExpPatch e p :: rest
      else e :: updateFirstMatch rest i p

/-- `Profile.findOneAndUpdate({ experience: { $elemMatch: { _id: i } } }, ...)`
(lines 255-269): scans the whole collection, updates the first document whose
experience array contains an entry with identifier `i`, and (with `new: true`)
returns the updated document; returns `null` when no document matches. -/
def findOneAndUpdateExp (store : List Profile) (i : String) (p : ExpPatch) :
    Option Profile × List Profile :=
  match store with
  | [] => (none, [])
  | pr :: rest =>
      if pr.experience.any (fun e => e.id = i) then
        let pr2 := { pr with experience := updateFirstMatch pr.experience i p }
        (some pr2, pr2 :: rest)
      else
        let (r, rest2) := findOneAndUpdateExp rest i p
        (r, pr :: rest2)

/-- The PUT api/profile/experience/:exp_id handler (lines 253-299).  The query
is keyed only on the sub-document identifier — `req.user.id` (here `uid`) is
never consulted — and the result of `findOneAndUpdate` is sent with
`res.json`, which yields a 200 response with body `null` when nothing
matched. -/
def updateExpHandler (store : List Profile) (uid : String) (expId : String)
    (p : ExpPatch) : Response × List Profile :=
  let (r, store2) := findOneAndUpdateExp store expId p
  match r with
  | none => (⟨200, .nullJson⟩, store2)
  | some pr => (⟨200, .profileJson pr⟩, store2)

/-- The DELETE api/profile/experience/:exp_id handler (lines 309-323): loads
the caller's own profile, filters its experience list by identifier, saves,
and returns the profile with status 200. -/
def delExpHandler (store : List Profile) (uid : String) (expId : String) :
    Response × List Profile :=
  match findOneProfile store uid with
  | none => (⟨500, .msg ("Server error")⟩, store)
  | some pr =>
      let pr2 := { pr with experience := expRemoveByID pr.experience expId }
      (⟨200, .profileJson pr2⟩, replaceFirstByUser store uid pr2)

/-- The DELETE api/profile/education/:edu_id handler (lines 396-408). -/
def delEduHandler (store : List Profile) (uid : String) (eduId : String) :
    Response × List Profile :=
  match findOneProfile store uid with
  | none => (⟨500, .msg ("Server error")⟩, store)
  | some pr =>
      let pr2 := { pr with education := eduRemoveByID pr.education eduId }
      (⟨200, .profileJson pr2⟩, replaceFirstByUser store uid pr2)

/-- The `skills` field of an upsert payload, which JavaScript lets arrive
either as an array of strings or as a single delimited string
(`Array.isArray(skills)` dispatch, line 85). -/
inductive SkillsInput where
  | str (s : String)
  | arr (l : List String)
  deriving DecidableEq, Repr

/-- Splitting a character list at every comma, keeping empty fragments: the
semantics of JavaScript `String.prototype.split(",")` (so `""` yields `[""]`).
The accumulator holds the current fragment reversed. -/
def splitCommaAux : List Char → List Char → List String
  | [], acc => [String.mk acc.reverse]
  | c :: cs, acc =>
      if c = ',' then String.mk acc.reverse :: splitCommaAux cs []
      else splitCommaAux cs (c :: acc)

/-- JavaScript `s.split(",")`. -/
def jsSplitComma (s : String) : List String :=
  splitCommaAux s.data []

/-- Dropping leading whitespace from a character list. -/
def dropLeadingWs : List Char → List Char
  | [] => []
  | c :: cs => if c.isWhitespace then dropLeadingWs cs else c :: cs

/-- JavaScript `s.trim()`: leading and trailing whitespace removed. -/
def jsTrim (s : String) : String :=
  String.mk (dropLeadingWs (dropLeadingWs s.data).reverse).reverse

/-- The skills expression of the `profileFields` literal (lines 85-87):
`Array.isArray(skills) ? skills : skills.split(",").map((skill) => " " + skill.trim())`.
An absent `skills` makes `skills.split` dereference `undefined` and throw. -/
def skillsField : Option SkillsInput → Except JsError (List String)
  | none => .error .typeError
  | some (.arr l) => .ok l
  | some (.str s) => .ok ((jsSplitComma s).map (fun skill => " " ++ jsTrim skill))

/-- The external `normalize-url` call with `forceHttps` on a possibly-absent
value.  The library begins by trimming its string argument, so a missing
(`undefined`) argument raises a TypeError; for a present string we model the
canonical secure form by forcing an `https://` scheme (the claims under proof
depend only on whether the call throws, never on the exact canonical form). -/
def normalizeUrl : Option String → Except JsError String
  | none => .error .typeError
  | some s =>
      .ok (if s.startsWith ("https://") then s
           else if s.startsWith ("http://") then
             "https://" ++ s.drop ("http://".length)
           else "https://" ++ s)

/-- The website expression of the `profileFields` literal (line 83):
`website === "" ? "" : normalize(website, { forceHttps: true })`.  Only an
explicitly empty string bypasses the `normalize` call. -/
def websiteField (w : Option String) : Except JsError String :=
  if w = some ("") then .ok ""
  else normalizeUrl w

/-- One social link after the loop of lines 95-98: `normalize` is applied only
when the value is truthy and non-empty, so an absent or empty value passes
through unchanged and the call can never see `undefined`. -/
def socialField (v : Option String) : Option String :=
  match v with
  | none => none
  | some s => if s = "" then some s else (normalizeUrl (some s)).toOption

/-- The body of a POST api/profile upsert request. -/
structure UpsertBody where
  company : Option String
  website : Option String
  location : Option String
  status : Option String
  skills : Option SkillsInput
  bio : Option String
  githubusername : Option String
  youtube : Option String
  twitter : Option String
  instagram : Option String
  linkedin : Option String
  facebook : Option String
  deriving DecidableEq, Repr

/-- express-validator's emptiness coercion of a `skills` value: an array is
stringified (`join(",")`) before the emptiness test. -/
def skillsIsEmpty : Option SkillsInput → Bool
  | none => true
  | some (.str s) => s = ""
  | some (.arr l) => String.intercalate (",") l = ""

/-- The validation of POST api/profile (lines 53-54): `status` and `skills`
must be non-empty. -/
def upsertValidationErrors (b : UpsertBody) : List String :=
  (if isEmptyVal b.status then ["Status is required"] else []) ++
  (if skillsIsEmpty b.skills then ["Skills is required"] else [])

/-- The scalar fields placed into the `$set` document of the upsert
(`profileFields` plus the attached `social` object). -/
structure ProfileFields where
  user : String
  company : Option String
  location : Option String
  website : String
  bio : Option String
  skills : List String
  status : Option String
  githubusername : Option String
  social : Social
  deriving DecidableEq, Repr

/-- Building `profileFields` (lines 79-99).  The object literal evaluates the
website and skills expressions eagerly, so either of them throwing aborts the
whole construction; the social loop then normalizes each truthy non-empty
link.  All of this happens before — and outside — the handler's try/catch. -/
def buildProfileFields (uid : String) (b : UpsertBody) :
    Except JsError ProfileFields :=
  match websiteField b.website with
  | .error e => .error e
  | .ok website =>
      match skillsField b.skills with
      | .error e => .error e
      | .ok skills =>
          .ok { user := uid, company := b.company, location := b.location,
                website := website, bio := b.bio, skills := skills,
                status := b.status, githubusername := b.githubusername,
                social :=
                  { youtube := socialField b.youtube,
                    twitter := socialField b.twitter,
                    instagram := socialField b.instagram,
                    linkedin := socialField b.linkedin,
                    facebook := socialField b.facebook } }

/-- `Profile.findOneAndUpdate({ user: uid }, { $set: profileFields },
{ new: true, upsert: true })` (lines 103-107): replace the scalar fields of
the document owned by `uid`, creating the document (with empty sub-document
lists) when none exists; returns the resulting document. -/
def upsertProfile (store : List Profile) (uid : String) (f : ProfileFields) :
    Profile × List Profile :=
  match store with
  | [] =>
      let p : Profile :=
        { user := f.user, company := f.company, location := f.location,
          website := f.website, bio := f.bio, skills := f.skills,
          status := f.status, githubusername := f.githubusername,
          social := f.social, experience := [], education := [] }
      (p, [p])
  | p :: rest =>
      if p.user = uid then
        let p2 : Profile :=
          { p with company := f.company, location := f.location,
                   website := f.website, bio := f.bio, skills := f.skills,
                   status := f.status, githubusername := f.githubusername,
                   social := f.social }
        (p2, p2 :: rest)
      else
        let (r, rest2) := upsertProfile rest uid f
        (r, p :: rest2)

/-- The observable outcome of one invocation of the upsert handler: the
uncaught exception if one escaped, the response if one was sent, and the store
as the handler left it. -/
structure UpsertOutcome where
  thrown : Option JsError
  resp : Option Response
  store : List Profile
  deriving DecidableEq, Repr

/-- The POST api/profile handler (lines 48-114).  Validation failures return
400 with the error list; building `profileFields` happens before the try
block, so an exception raised there escapes the handler uncaught and no store
write occurs; otherwise the try block performs the upsert and sends the
resulting document. -/
def upsertHandler (store : List Profile) (uid : String) (b : UpsertBody) :
    UpsertOutcome :=
  if upsertValidationErrors b ≠ [] then
    { thrown := none, resp := some ⟨400, .errors (upsertValidationErrors b)⟩,
      store := store }
  else
    match buildProfileFields uid b with
    | .error e => { thrown := some e, resp := none, store := store }
    | .ok f =>
        let (p, store2) := upsertProfile store uid f
        { thrown := none, resp := some ⟨200, .profileJson p⟩, store := store2 }

/-- The GET api/profile/me handler (lines 22-38): a missing profile yields a
400 response carrying a structured error list. -/
def meHandler (store : List Profile) (uid : String) : Response :=
  match findOneProfile store uid with
  | none => ⟨400, .errors ["There is no profile for this user"]⟩
  | some p => ⟨200, .profileJson p⟩

/-- The possible outcomes of the axios call to the GitHub API made by GET
api/profile/github/:username: success with a payload, or any of the failure
modes, each of which makes `await axios.get` throw into the handler's catch. -/
inductive GithubFetch where
  | ok (payload : String)
  | networkError
  | unknownHandle
  | rateLimited
  | malformedResponse
  deriving DecidableEq, Repr

/-- The GET api/profile/github/:username handler (lines 417-436): a successful
fetch forwards the payload; every failure mode lands in the single catch,
which sends 404 with the one fixed message. -/
def githubHandler : GithubFetch → Response
  | .ok payload => ⟨200, .reposJson payload⟩
  | .networkError => ⟨404, .msg ("No Github profile found")⟩
  | .unknownHandle => ⟨404, .msg ("No Github profile found")⟩
  | .rateLimited => ⟨404, .msg ("No Github profile found")⟩
  | .malformedResponse => ⟨404, .msg ("No Github profile found")⟩

/-- Whether a GitHub fetch outcome is one of the failure modes. -/
def GithubFetch.isFailure : GithubFetch → Bool
  | .ok _ => false
  | _ => true

/-! Concrete sample values, used to instantiate the general theorems below. -/

/-- A sample experience entry. -/
def expA : Experience :=
  { id := "a1", title := some ("Engineer"), company := some ("Acme"),
    location := none, fromDate := some ("2021-01-01"), toDate := none,
    current := none, description := none }

/-- A second sample experience entry with a different identifier. -/
def expB : Experience :=
  { id := "b2", title := some ("Designer"), company := some ("Initech"),
    location := none, fromDate := some ("2022-01-01"), toDate := none,
    current := none, description := none }

/-- A sample education entry. -/
def eduA : Education :=
  { id := "c3", school := some ("State U"), degree := some ("BSc"),
    fieldofstudy := some ("CS"), fromDate := some ("2015-01-01"),
    toDate := none, current := none, description := none }

/-- A second sample education entry with a different identifier. -/
def eduB : Education :=
  { id := "d4", school := some ("Tech U"), degree := some ("MSc"),
    fieldofstudy := some ("Math"), fromDate := some ("2019-01-01"),
    toDate := none, current := none, description := none }

/-- An upsert payload whose `skills` arrives as the delimited string
`"a, b ,c"` and whose `website` is the explicit empty string. -/
def upsertBody1 : UpsertBody :=
  { company := none, website := some (""), location := none,
    status := some ("Developer"), skills := some (.str ("a, b ,c")),
    bio := none, githubusername := none, youtube := none, twitter := none,
    instagram := none, linkedin := none, facebook := none }

/-- The `profileFields` document that `buildProfileFields` produces for
`upsertBody1` and owner `"u1"`. -/
def profileFields1 : ProfileFields :=
  { user := "u1", company := none, location := none, website := "",
    bio := none, skills := [" a", " b", " c"], status := some ("Developer"),
    githubusername := none,
    social := ⟨none, none, none, none, none⟩ }

/-- A valid add-experience payload (no `to` date). -/
def expBody1 : ExpBody :=
  { title := some ("Engineer"), company := some ("Acme"), location := none,
    fromDate := some ("2021-01-01"), toDate := none, current := none,
    description := none }

/-- An add-experience payload whose `from` date is after its `to` date. -/
def expBodyBadDates : ExpBody :=
  { title := some ("Engineer"), company := some ("Acme"), location := none,
    fromDate := some ("2020-01-01"), toDate := some ("2019-01-01"),
    current := none, description := none }

/-- A sample update payload for an experience entry. -/
def patch1 : ExpPatch :=
  { current := some true, title := some ("Lead"), company := some ("Acme"),
    location := some ("Remote"), fromDate := some ("2021-02-01"),
    toDate := none, description := some ("promoted") }

/-- A sample profile owned by `"owner1"` holding the experience entry `expA`
and the education entry `eduA`. -/
def profileP : Profile :=
  { user := "owner1", company := none, location := none, website := "",
    bio := none, skills := ["js"], status := some ("Developer"),
    githubusername := none, social := ⟨none, none, none, none, none⟩,
    experience := [expA], education := [eduA] }

/-- A sample profile owned by `"other"` with no sub-documents. -/
def profileQ : Profile :=
  { user := "other", company := none, location := none, website := "",
    bio := none, skills := ["css"], status := some ("Designer"),
    githubusername := none, social := ⟨none, none, none, none, none⟩,
    experience := [], education := [] }

/-- The upsert payload `upsertBody1` with the `website` field omitted
entirely. -/
def upsertBodyNoSite : UpsertBody :=
  { upsertBody1 with website := none }

/-! Helper lemmas shared by the claim theorems. -/

/-- When no document in the store holds an experience entry with identifier
`i`, the collection-wide `findOneAndUpdate` matches nothing and leaves the
store unchanged. -/
theorem findOneAndUpdateExp_no_match (store : List Profile) (i : String)
    (p : ExpPatch) (h : ∀ pr ∈ store, ∀ e ∈ pr.experience, e.id ≠ i) :
    findOneAndUpdateExp store i p = (none, store) := by
  induction store with
  | nil => rfl
  | cons q rest ih =>
      have hq : q.experience.any (fun e => e.id = i) = false := by
        simp only [List.any_eq_false, decide_eq_true_eq]
        exact fun e he => h q (List.mem_cons_self q rest) e he
      have ih2 := ih (fun pr hpr e he => h pr (List.mem_cons_of_mem q hpr) e he)
      simp [findOneAndUpdateExp, hq, ih2]

/-- When the documents of `pre` hold no experience entry with identifier `i`
and `pr` holds one, the collection-wide `findOneAndUpdate` updates exactly
`pr`, in place. -/
theorem findOneAndUpdateExp_first_match (pre post : List Profile)
    (pr : Profile) (i : String) (p : ExpPatch)
    (hpre : ∀ q ∈ pre, ∀ e ∈ q.experience, e.id ≠ i)
    (hpr : pr.experience.any (fun e => e.id = i) = true) :
    findOneAndUpdateExp (pre ++ pr :: post) i p =
      (some { pr with experience := updateFirstMatch pr.experience i p },
       pre ++ { pr with experience := updateFirstMatch pr.experience i p } :: post) := by
  induction pre with
  | nil => simp [findOneAndUpdateExp, hpr]
  | cons q rest ih =>
      have hq : q.experience.any (fun e => e.id = i) = false := by
        simp only [List.any_eq_false, decide_eq_true_eq]
        exact fun e he => hpre q (List.mem_cons_self q rest) e he
      have ih2 := ih (fun q2 hq2 e he => hpre q2 (List.mem_cons_of_mem q hq2) e he)
      simp [findOneAndUpdateExp, hq, ih2]

/-- C5: for every sub-document list and fresh entry `e` (its generated
identifier occurs in no existing entry), removing by that identifier from the
list produced by adding `e` yields a list equal to the original in contents
and order, for experience as well as education lists. -/
theorem add_then_remove_restores_list (l : List Experience) (e : Experience)
    (le : List Education) (d : Education)
    (h : e.id ∉ l.map Experience.id) (h2 : d.id ∉ le.map Education.id) :
    expRemoveByID (expUnshift l e) e.id = l ∧
    eduRemoveByID (eduUnshift le d) d.id = le := by
  constructor
  · unfold expRemoveByID expUnshift
    rw [List.filter_cons_of_neg]
    · rw [List.filter_eq_self]
      intro a ha
      simp only [decide_eq_true_eq]
      exact fun hc => h (hc ▸ List.mem_map_of_mem Experience.id ha)
    · simp
  · unfold eduRemoveByID eduUnshift
    rw [List.filter_cons_of_neg]
    · rw [List.filter_eq_self]
      intro a ha
      simp only [decide_eq_true_eq]
      exact fun hc => h2 (hc ▸ List.mem_map_of_mem Education.id ha)
    · simp

/-- Witness for C5 at concrete lists and entries. -/
theorem add_then_remove_restores_list_witness :
    expB.id ∉ [expA].map Experience.id ∧
    eduB.id ∉ [eduA].map Education.id ∧
    (expRemoveByID (expUnshift [expA] expB) expB.id = [expA] ∧
     eduRemoveByID (eduUnshift [eduA] eduB) eduB.id = [eduA]) :=
  ⟨by decide, by decide,
   add_then_remove_restores_list [expA] expB [eduA] eduB (by decide) (by decide)⟩

/-- C6: adding a sub-document entry (experience or education) inserts it at
position 0, pre-existing entries keep their relative order (the tail of the
new list is exactly the old list, and for a non-empty list the last element is
unchanged, so insertion is never at the tail); after adding E1 then E2 the
first element is E2 and the second is E1. -/
theorem add_inserts_at_head (l : List Experience) (e1 e2 : Experience)
    (le : List Education) (d1 d2 : Education) (hl : l ≠ []) :
    expUnshift (expUnshift l e1) e2 = e2 :: e1 :: l ∧
    (expUnshift (expUnshift l e1) e2).head? = some e2 ∧
    (expUnshift (expUnshift l e1) e2).get? 1 = some e1 ∧
    (expUnshift (expUnshift l e1) e2).drop 2 = l ∧
    (expUnshift l e1).getLast? = l.getLast? ∧
    eduUnshift (eduUnshift le d1) d2 = d2 :: d1 :: le ∧
    (eduUnshift le d1).drop 1 = le := by
  refine ⟨rfl, rfl, rfl, rfl, ?_, rfl, rfl⟩
  obtain ⟨b, l2, rfl⟩ := List.exists_cons_of_ne_nil hl
  rfl

/-- Witness for C6 at concrete lists and entries. -/
theorem add_inserts_at_head_witness :
    [expA] ≠ ([] : List Experience) ∧
    (expUnshift (expUnshift [expA] expB) expA = expA :: expB :: [expA] ∧
     (expUnshift (expUnshift [expA] expB) expA).head? = some expA ∧
     (expUnshift (expUnshift [expA] expB) expA).get? 1 = some expB ∧
     (expUnshift (expUnshift [expA] expB) expA).drop 2 = [expA] ∧
     (expUnshift [expA] expB).getLast? = [expA].getLast? ∧
     eduUnshift (eduUnshift [eduA] eduB) eduA = eduA :: eduB :: [eduA] ∧
     (eduUnshift [eduA] eduB).drop 1 = [eduA]) :=
  ⟨by decide, add_inserts_at_head [expA] expB expA [eduA] eduB eduA (by decide)⟩

/-- C7: remove-by-identifier keeps exactly the entries whose identifier
differs from the given one, the remainder is a sublist of the original (so
relative order is preserved), and when nothing matches the list is returned
unchanged — for experience as well as education lists. -/
theorem remove_by_id_exact (l : List Experience) (i : String)
    (le : List Education) :
    (expRemoveByID l i).Sublist l ∧
    (∀ e, e ∈ expRemoveByID l i ↔ e ∈ l ∧ e.id ≠ i) ∧
    ((∀ e ∈ l, e.id ≠ i) → expRemoveByID l i = l) ∧
    (eduRemoveByID le i).Sublist le ∧
    (∀ e, e ∈ eduRemoveByID le i ↔ e ∈ le ∧ e.id ≠ i) ∧
    ((∀ e ∈ le, e.id ≠ i) → eduRemoveByID le i = le) := by
  refine ⟨List.filter_sublist l, ?_, ?_, List.filter_sublist le, ?_, ?_⟩
  · intro e
    simp [expRemoveByID, List.mem_filter]
  · intro hnone
    rw [expRemoveByID, List.filter_eq_self]
    intro a ha
    simpa using hnone a ha
  · intro e
    simp [eduRemoveByID, List.mem_filter]
  · intro hnone
    rw [eduRemoveByID, List.filter_eq_self]
    intro a ha
    simpa using hnone a ha

/-- Witness for C7 at a concrete two-entry list, a matching identifier for
the membership clauses and an unknown identifier for the no-op clause. -/
theorem remove_by_id_exact_witness :
    (expRemoveByID [expA, expB] expA.id).Sublist [expA, expB] ∧
    (expB ∈ expRemoveByID [expA, expB] expA.id ↔
      expB ∈ [expA, expB] ∧ expB.id ≠ expA.id) ∧
    ((∀ e ∈ [expA, expB], e.id ≠ "zz") → expRemoveByID [expA, expB] "zz" = [expA, expB]) ∧
    expRemoveByID [expA, expB] "zz" = [expA, expB] ∧
    eduRemoveByID [eduA] "zz" = [eduA] :=
  ⟨(remove_by_id_exact [expA, expB] expA.id [eduA]).1,
   (remove_by_id_exact [expA, expB] expA.id [eduA]).2.1 expB,
   (remove_by_id_exact [expA, expB] ("zz") [eduA]).2.2.1,
   (remove_by_id_exact [expA, expB] ("zz") [eduA]).2.2.1 (by decide),
   (remove_by_id_exact [expA, expB] ("zz") [eduA]).2.2.2.2.2 (by decide)⟩

/-- C1 counterexample: for the delimited-string input `"a, b ,c"` the upsert
handler stores `[" a", " b", " c"]` — each fragment is trimmed and then a
single space is prepended — which differs from the claimed `["a","b","c"]`. -/
theorem skills_trim_counterexample :
    buildProfileFields ("u1") upsertBody1 = .ok profileFields1 ∧
    profileFields1.skills = [" a", " b", " c"] ∧
    profileFields1.skills ≠ ["a", "b", "c"] :=
  ⟨rfl, rfl, by decide⟩

/-- C1 amended: for every validated upsert request, when `skills` is supplied
as a comma-delimited string the stored skills are the comma-separated
fragments each trimmed and then prefixed with one space, and when `skills` is
supplied as a sequence it is stored exactly as given. -/
theorem skills_normalization_from_code (uid : String) (b : UpsertBody)
    (f : ProfileFields) (hf : buildProfileFields uid b = .ok f) :
    (∀ s, b.skills = some (.str s) →
        f.skills = (jsSplitComma s).map (fun t => " " ++ jsTrim t)) ∧
    (∀ l, b.skills = some (.arr l) → f.skills = l) := by
  have hs : skillsField b.skills = .ok f.skills := by
    unfold buildProfileFields at hf
    rcases hwebsite : websiteField b.website with e | w <;> rw [hwebsite] at hf
    · exact absurd hf (by simp)
    · rcases hskills : skillsField b.skills with e2 | sk <;> rw [hskills] at hf
      · exact absurd hf (by simp)
      · cases hf
        rfl
  constructor
  · intro s hb
    rw [hb] at hs
    simpa [skillsField] using hs.symm
  · intro l hb
    rw [hb] at hs
    simpa [skillsField] using hs.symm

/-- Witness for the amended C1 at the concrete payload `upsertBody1`. -/
theorem skills_normalization_from_code_witness :
    buildProfileFields ("u1") upsertBody1 = .ok profileFields1 ∧
    (∀ s, upsertBody1.skills = some (.str s) →
        profileFields1.skills = (jsSplitComma s).map (fun t => " " ++ jsTrim t)) ∧
    (∀ l, upsertBody1.skills = some (.arr l) → profileFields1.skills = l) :=
  ⟨rfl, skills_normalization_from_code ("u1") upsertBody1 profileFields1 rfl⟩

/-- C2 counterexample: with an empty store (no aggregate for the identity) a
validated add-experience request yields the 500-class "Server Error"
response — the unexpected-failure class, not a distinct NotFound — and the
store stays empty. -/
theorem add_experience_missing_profile_counterexample :
    addExpHandler [] ("u1") expBody1 ("e9") = (⟨500, .text ("Server Error")⟩, []) ∧
    (addExpHandler [] ("u1") expBody1 ("e9")).1.status = 500 :=
  ⟨rfl, rfl⟩

/-- C2 amended: for every validated add-experience request, when the identity
has no aggregate the handler's sub-document mutation dereferences the missing
document and the catch answers with the 500-class "Server Error" (no aggregate
is implicitly created, the store is unchanged); when the aggregate exists the
entry is prepended at the head, persisted, and the aggregate returned. -/
theorem add_experience_outcomes (store : List Profile) (uid : String)
    (b : ExpBody) (fid : String) (hv : expValidationErrors b = []) :
    (findOneProfile store uid = none →
        addExpHandler store uid b fid = (⟨500, .text ("Server Error")⟩, store)) ∧
    ∀ pr, findOneProfile store uid = some pr →
        addExpHandler store uid b fid =
          (⟨200, .profileJson
              { pr with experience := expUnshift pr.experience (newExpOf b fid) }⟩,
           replaceFirstByUser store uid
              { pr with experience := expUnshift pr.experience (newExpOf b fid) }) := by
  constructor
  · intro h
    simp [addExpHandler, hv, h]
  · intro pr h
    simp [addExpHandler, hv, h]

/-- Witness for the amended C2: both branches at concrete stores. -/
theorem add_experience_outcomes_witness :
    expValidationErrors expBody1 = [] ∧
    addExpHandler [] ("u1") expBody1 ("e8") = (⟨500, .text ("Server Error")⟩, []) ∧
    addExpHandler [profileP] ("owner1") expBody1 ("e8") =
      (⟨200, .profileJson
          { profileP with
              experience := expUnshift profileP.experience (newExpOf expBody1 ("e8")) }⟩,
       replaceFirstByUser [profileP] ("owner1")
          { profileP with
              experience := expUnshift profileP.experience (newExpOf expBody1 ("e8")) }) :=
  ⟨rfl,
   (add_experience_outcomes [] ("u1") expBody1 ("e8") rfl).1 rfl,
   (add_experience_outcomes [profileP] ("owner1") expBody1 ("e8") rfl).2 profileP rfl⟩

/-- C3: the update-experience operation searches the whole store for the first
aggregate whose experience list holds an entry with the given identifier —
the authenticated caller's identity plays no role — and overwrites the matched
entry's seven payload fields with the patch, keeping its identifier. -/
theorem update_experience_cross_store (uid uid2 : String)
    (pre post : List Profile) (pr : Profile) (i : String) (p : ExpPatch)
    (hpre : ∀ q ∈ pre, ∀ e ∈ q.experience, e.id ≠ i)
    (hpr : ∃ e ∈ pr.experience, e.id = i) :
    updateExpHandler (pre ++ pr :: post) uid i p =
      (⟨200, .profileJson { pr with experience := updateFirstMatch pr.experience i p }⟩,
       pre ++ { pr with experience := updateFirstMatch pr.experience i p } :: post) ∧
    updateExpHandler (pre ++ pr :: post) uid i p =
      updateExpHandler (pre ++ pr :: post) uid2 i p ∧
    ∀ e : Experience, applyExpPatch e p =
      { id := e.id, current := p.current, title := p.title,
        company := p.company, location := p.location, fromDate := p.fromDate,
        toDate := p.toDate, description := p.description } := by
  have hany : pr.experience.any (fun e => e.id = i) = true := by
    simp only [List.any_eq_true, decide_eq_true_eq]
    exact hpr
  have hfind := findOneAndUpdateExp_first_match pre post pr i p hpre hany
  exact ⟨by simp [updateExpHandler, hfind], rfl, fun e => rfl⟩

/-- Witness for C3: the matched aggregate belongs to `"owner1"` while the
caller is `"someone-else"`. -/
theorem update_experience_cross_store_witness :
    (∃ e ∈ profileP.experience, e.id = "a1") ∧
    profileP.user ≠ "someone-else" ∧
    updateExpHandler [profileQ, profileP] ("someone-else") ("a1") patch1 =
      (⟨200, .profileJson
          { profileP with experience := updateFirstMatch profileP.experience ("a1") patch1 }⟩,
       [profileQ, { profileP with
          experience := updateFirstMatch profileP.experience ("a1") patch1 }]) :=
  ⟨by decide, by decide,
   (update_experience_cross_store ("someone-else") ("caller2") [profileQ] []
      profileP ("a1") patch1 (by decide) (by decide)).1⟩

/-- C4 counterexample: with a store whose only aggregate holds no entry with
identifier `"zz"`, the update responds 200 with a `null` body — success with
a null result, not a signalled not-found condition. -/
theorem update_experience_unmatched_counterexample :
    updateExpHandler [profileP] ("u1") ("zz") patch1 = (⟨200, .nullJson⟩, [profileP]) ∧
    (updateExpHandler [profileP] ("u1") ("zz") patch1).1.status = 200 :=
  ⟨rfl, rfl⟩

/-- C4 amended: for every store in which no experience entry carries the given
identifier, the update-by-identifier handler reports success (status 200) with
a `null` aggregate body and leaves the store unchanged; no not-found condition
is signalled. -/
theorem update_experience_unmatched_returns_null (store : List Profile)
    (uid i : String) (p : ExpPatch)
    (h : ∀ pr ∈ store, ∀ e ∈ pr.experience, e.id ≠ i) :
    updateExpHandler store uid i p = (⟨200, .nullJson⟩, store) := by
  simp [updateExpHandler, findOneAndUpdateExp_no_match store i p h]

/-- Witness for the amended C4 at a concrete one-aggregate store. -/
theorem update_experience_unmatched_returns_null_witness :
    (∀ pr ∈ [profileP], ∀ e ∈ pr.experience, e.id ≠ "zz") ∧
    updateExpHandler [profileP] ("u2") ("zz") patch1 = (⟨200, .nullJson⟩, [profileP]) :=
  ⟨by decide,
   update_experience_unmatched_returns_null [profileP] ("u2") ("zz") patch1 (by decide)⟩

/-- C8: an add-experience request that supplies a non-empty `to` date while
its `from` date is not earlier (code-unit order, which on ISO dates is
chronological order) is rejected with the 400-class validation response and
the store is not touched. -/
theorem add_experience_bad_dates_rejected (store : List Profile)
    (uid : String) (b : ExpBody) (fid t : String) (ht : b.toDate = some t)
    (htne : t ≠ "") (hlt : jsLtUndef b.fromDate t = false) :
    expValidationErrors b ≠ [] ∧
    addExpHandler store uid b fid =
      (⟨400, .errors (expValidationErrors b)⟩, store) := by
  have hc : fromCustomOk b = false := by
    simp [fromCustomOk, ht, htne, hlt]
  have hmem : ("From date is required and needs to be from the past")
      ∈ expValidationErrors b := by
    simp [expValidationErrors, hc]
  have hne : expValidationErrors b ≠ [] := List.ne_nil_of_mem hmem
  exact ⟨hne, by simp [addExpHandler, hne]⟩

/-- Witness for C8: `from = 2020-01-01`, `to = 2019-01-01` is rejected. -/
theorem add_experience_bad_dates_rejected_witness :
    expBodyBadDates.toDate = some ("2019-01-01") ∧
    jsLtUndef expBodyBadDates.fromDate ("2019-01-01") = false ∧
    (expValidationErrors expBodyBadDates ≠ [] ∧
     addExpHandler [profileP] ("owner1") expBodyBadDates ("e7") =
       (⟨400, .errors (expValidationErrors expBodyBadDates)⟩, [profileP])) :=
  ⟨rfl, by decide,
   add_experience_bad_dates_rejected [profileP] ("owner1") expBodyBadDates ("e7")
     ("2019-01-01") rfl (by decide) (by decide)⟩

/-- C9: all failure modes of the external repository lookup collapse to the
one 404 "No Github profile found" response, which differs from the response
the profile read path sends when the aggregate store has no profile for the
identity (400 with a structured error list). -/
theorem enrichment_failure_single_condition (k1 k2 : GithubFetch)
    (store : List Profile) (uid : String) (h1 : k1.isFailure = true)
    (h2 : k2.isFailure = true) (hp : findOneProfile store uid = none) :
    githubHandler k1 = githubHandler k2 ∧
    githubHandler k1 = ⟨404, .msg ("No Github profile found")⟩ ∧
    githubHandler k1 ≠ meHandler store uid := by
  have e1 : githubHandler k1 = ⟨404, .msg ("No Github profile found")⟩ := by
    cases k1 <;> simp_all [GithubFetch.isFailure, githubHandler]
  have e2 : githubHandler k2 = ⟨404, .msg ("No Github profile found")⟩ := by
    cases k2 <;> simp_all [GithubFetch.isFailure, githubHandler]
  refine ⟨e1.trans e2.symm, e1, ?_⟩
  rw [e1]
  simp [meHandler, hp]

/-- Witness for C9: two distinct failure modes against an empty store. -/
theorem enrichment_failure_single_condition_witness :
    GithubFetch.isFailure .networkError = true ∧
    findOneProfile [] ("u1") = none ∧
    (githubHandler .networkError = githubHandler .rateLimited ∧
     githubHandler .networkError = ⟨404, .msg ("No Github profile found")⟩ ∧
     githubHandler .networkError ≠ meHandler [] ("u1")) :=
  ⟨rfl, rfl,
   enrichment_failure_single_condition .networkError .rateLimited [] ("u1")
     rfl rfl rfl⟩

/-- C10: a validated upsert payload with `website` omitted (undefined, not the
empty string) makes the handler throw while building `profileFields` — the
exception escapes (it is raised before the try/catch) and no store write
happens; an explicitly empty website string is the only value that bypasses
the `normalize` call. -/
theorem upsert_missing_website_throws (store : List Profile) (uid : String)
    (b : UpsertBody) (hw : b.website = none)
    (hv : upsertValidationErrors b = []) :
    (upsertHandler store uid b).thrown = some .typeError ∧
    (upsertHandler store uid b).resp = none ∧
    (upsertHandler store uid b).store = store ∧
    websiteField (some ("")) = .ok "" ∧
    (∀ s : String, s ≠ "" → websiteField (some s) = normalizeUrl (some s)) := by
  have hb : buildProfileFields uid b = .error .typeError := by
    unfold buildProfileFields
    simp [websiteField, hw, normalizeUrl]
  refine ⟨?_, ?_, ?_, rfl, ?_⟩
  · simp [upsertHandler, hv, hb]
  · simp [upsertHandler, hv, hb]
  · simp [upsertHandler, hv, hb]
  · intro s hs
    simp [websiteField, hs]

/-- Witness for C10 at the concrete payload with `website` omitted. -/
theorem upsert_missing_website_throws_witness :
    upsertBodyNoSite.website = none ∧
    upsertValidationErrors upsertBodyNoSite = [] ∧
    ((upsertHandler [] ("u1") upsertBodyNoSite).thrown = some .typeError ∧
     (upsertHandler [] ("u1") upsertBodyNoSite).resp = none ∧
     (upsertHandler [] ("u1") upsertBodyNoSite).store = [] ∧
     websiteField (some ("")) = .ok "" ∧
     (∀ s : String, s ≠ "" → websiteField (some s) = normalizeUrl (some s))) :=
  ⟨rfl, rfl, upsert_missing_website_throws [] ("u1") upsertBodyNoSite rfl rfl⟩

end ProfileApi
